import Mathlib

/-!
Verification of the sweek-scheduling website's core logic: the
`POST /api/update-match-stage` handler (route.ts), the token-resolving
student page (`app/s/[token]/page.tsx`), and the `CompanyCard` /
`StudentMatchesPage` client components, shallowly embedded as pure
functions over an explicit datastore state.

The SHA-256 digest is abstracted as a parameter `hash : String → String`:
the code uses no property of SHA-256 other than applying it to the token
before the lookup, so every theorem is proved for an arbitrary hash
function and in particular holds for SHA-256.
-/

namespace Sweek

/-- A row of the `sweek_students` table (schema in the setup README):
`id`, `name`, `email`, `token_hash`, `is_active`. The plaintext `token`
column is never read by the code under verification and is omitted. -/
structure Student where
  id : String
  name : String
  email : String
  token_hash : String
  is_active : Bool
deriving Repr, DecidableEq

/-- A row of the `sweek_companies` table, with the columns selected by
`getStudentMatches` in `app/s/[token]/page.tsx`. -/
structure CompanyRow where
  id : String
  name : String
  blurb : String
  looking_for : String
  logo_slug : String
  scheduling_url : String
  website_url : Option String
deriving Repr, DecidableEq

/-- A row of the `sweek_matches` table: composite key
`(student_id, company_id)`, plus `tier` and the mutable `stage`. -/
structure MatchRow where
  student_id : String
  company_id : String
  tier : String
  stage : String
deriving Repr, DecidableEq

/-- The datastore visible to the core: the three relations. -/
structure DB where
  students : List Student
  companies : List CompanyRow
  matchRows : List MatchRow
deriving Repr, DecidableEq

/-- JS truthiness of a maybe-absent string request field: `undefined`
(here `none`) and the empty string are falsy, any other string truthy —
this is what `!token || !companyId || !stage` in route.ts tests. -/
def truthy : Option String → Bool
  | none => false
  | some s => !s.isEmpty

/-- The `validStages` array of route.ts line 20, verbatim. -/
def validStages : List String :=
  ["pending", "accepted", "rejected", "assigned", "need_to_schedule",
   "scheduled", "completed", "declined", "canceled", "no_show"]

/-- A parsed JSON request body for the update endpoint: either
`request.json()` throws (malformed body), or it yields an object whose
three destructured fields are each present or absent. -/
inductive ReqBody where
  | malformed : ReqBody
  | fields (token companyId stage : Option String) : ReqBody
deriving Repr, DecidableEq

/-- A response body: an error object `{error: msg}` or the success object
`{success: true, data: {stage}}` (only the stage is data-dependent). -/
inductive RespBody where
  | err (msg : String) : RespBody
  | ok (stage : String) : RespBody
deriving Repr, DecidableEq

/-- An HTTP response: status code and JSON body. -/
structure Response where
  status : Nat
  body : RespBody
deriving Repr, DecidableEq

/-- route.ts line 13: 400 missing-fields. -/
def missingFieldsResp : Response :=
  ⟨400, .err "Missing required fields: token, companyId, stage"⟩

/-- route.ts line 22: 400 invalid stage. -/
def invalidStageResp : Response := ⟨400, .err "Invalid stage value"⟩

/-- route.ts line 41: 404 student not found or inactive. -/
def notFoundResp : Response := ⟨404, .err "Student not found or inactive"⟩

/-- route.ts line 56: 500 persistence failure. -/
def updateFailedResp : Response := ⟨500, .err "Failed to update match stage"⟩

/-- route.ts line 69: 500 from the outer catch. -/
def internalErrorResp : Response := ⟨500, .err "Internal server error"⟩

/-- route.ts line 62: 200 success carrying the returned stage. -/
def successResp (stage : String) : Response := ⟨200, .ok stage⟩

/-- The result of one request: the response, the datastore afterwards,
and whether the datastore was contacted at all during the request. -/
structure Outcome where
  resp : Response
  db : DB
  dbTouched : Bool
deriving Repr, DecidableEq

/-- The student lookup shared by route.ts lines 33–38 and
`getStudentByToken` in `app/s/[token]/page.tsx`: select the row whose
`token_hash` equals the hash of the token and whose `is_active` is true;
`.single()` yields an error (treated as no student) when no row matches. -/
def getStudentByToken (hash : String → String) (db : DB) (token : String) :
    Option Student :=
  db.students.find? fun s => s.token_hash == hash token && s.is_active

/-- The matches list of `db` with the stage of the `(sid, cid)` row
replaced by `stage`, all other rows untouched. -/
def updateMatches (db : DB) (sid cid stage : String) : DB :=
  { db with
    matchRows := db.matchRows.map fun m =>
      if m.student_id == sid && m.company_id == cid then
        { m with stage := stage }
      else m }

/-- Modelled from the spec: the `update_match_stage` stored procedure
invoked via `supabase.rpc` in route.ts line 48 is not in the repository;
per §4.3 step 4 it persists the new stage for the `(student.id, companyId)`
key as a single atomic operation and returns the updated row, and it
returns no row when no match exists for that key. -/
def update_match_stage (db : DB) (sid cid stage : String) :
    Option MatchRow × DB :=
  match db.matchRows.find? (fun m => m.student_id == sid && m.company_id == cid) with
  | none => (none, db)
  | some r => (some { r with stage := stage }, updateMatches db sid cid stage)

/-- The POST handler of `app/api/update-match-stage/route.ts`, as a pure
function of the hash function, a flag injecting a persistence-layer error
(the `error` result of the rpc call), the datastore, and the parsed body.
A malformed body models `request.json()` throwing, caught by the outer
catch; when the rpc returns no row, reading `data.stage` throws and is
likewise caught by the outer catch (route.ts lines 62–72). -/
def POST (hash : String → String) (rpcError : Bool) (db : DB)
    (body : ReqBody) : Outcome :=
  match body with
  | .malformed => ⟨internalErrorResp, db, false⟩
  | .fields token? companyId? stage? =>
    if !truthy token? || !truthy companyId? || !truthy stage? then
      ⟨missingFieldsResp, db, false⟩
    else
      let token := token?.getD ""
      let companyId := companyId?.getD ""
      let stage := stage?.getD ""
      if !validStages.contains stage then
        ⟨invalidStageResp, db, false⟩
      else
        match getStudentByToken hash db token with
        | none => ⟨notFoundResp, db, true⟩
        | some student =>
          if rpcError then
            ⟨updateFailedResp, db, true⟩
          else
            match update_match_stage db student.id companyId stage with
            | (none, db1) => ⟨internalErrorResp, db1, true⟩
            | (some row, db1) => ⟨successResp row.stage, db1, true⟩

/-- Reading back the stage of the `(sid, cid)` match from the datastore. -/
def getMatchStage (db : DB) (sid cid : String) : Option String :=
  (db.matchRows.find? fun m => m.student_id == sid && m.company_id == cid).map
    (·.stage)

/-- Whether a match row exists for the `(sid, cid)` key. -/
def matchExists (db : DB) (sid cid : String) : Bool :=
  (db.matchRows.find? fun m => m.student_id == sid && m.company_id == cid).isSome

/-- The company record handed to the UI by `getStudentMatches` in
`app/s/[token]/page.tsx`: the joined company columns spread together with
the match's `tier` and `stage`. -/
structure CompanyView where
  id : String
  name : String
  blurb : String
  looking_for : String
  logo_slug : String
  scheduling_url : String
  website_url : Option String
  tier : String
  stage : String
deriving Repr, DecidableEq

/-- `getStudentMatches` of `app/s/[token]/page.tsx`: the student's match
rows inner-joined with `sweek_companies`, each yielding the company's
columns plus the match's tier and stage (rows whose company is missing
are dropped by the inner join). -/
def getStudentMatches (db : DB) (studentId : String) : List CompanyView :=
  (db.matchRows.filter fun m => m.student_id == studentId).filterMap fun m =>
    (db.companies.find? fun c => c.id == m.company_id).map fun c =>
      { id := c.id, name := c.name, blurb := c.blurb
        looking_for := c.looking_for, logo_slug := c.logo_slug
        scheduling_url := c.scheduling_url, website_url := c.website_url
        tier := m.tier, stage := m.stage }

/-- What `StudentPage` renders: the not-found page, or the matches page
for a resolved student. -/
inductive PageView where
  | notFoundView : PageView
  | matchesView (student : Student) (matchList : List CompanyView) : PageView
deriving Repr, DecidableEq

/-- `StudentPage` of `app/s/[token]/page.tsx`: resolve the token, render
`notFound()` when no active student resolves, otherwise render the
student's matches page. -/
def StudentPage (hash : String → String) (db : DB) (token : String) :
    PageView :=
  match getStudentByToken hash db token with
  | none => .notFoundView
  | some student => .matchesView student (getStudentMatches db student.id)

/-- The shapes a `CompanyCard` can render as: the compact preview card
with Accept/Pass buttons, the collapsed greyed-out declined card (with
its corner undo button), or the expanded detail card, recording whether
the scheduling section and button are shown and whether the corner undo
button is shown. -/
inductive CardView where
  | previewCard : CardView
  | archivedCard : CardView
  | detailCard (hasScheduling : Bool) (hasUndo : Bool) : CardView
deriving Repr, DecidableEq

/-- The branch structure of `CompanyCard`: preview mode when
`(isPending && !showDetails) || isRejected` (inside it, rejected cards
render the collapsed archived variant), otherwise the full-details card,
whose undo button and stage dropdown appear iff not pending and whose
scheduling block appears iff the stage is one of need_to_schedule,
scheduled, completed. -/
def cardView (stage : String) (showDetails : Bool) : CardView :=
  if (stage == "pending" && !showDetails) || stage == "rejected" then
    if stage == "rejected" then .archivedCard else .previewCard
  else
    .detailCard
      (stage == "need_to_schedule" || stage == "scheduled" ||
        stage == "completed")
      (!(stage == "pending"))

/-- `CompanyCard`'s `showDetails` state is initialised to
`stage !== "pending"` (CompanyCard.tsx line 38). -/
def initialShowDetails (stage : String) : Bool := !(stage == "pending")

/-- The card as first rendered for a match at a given stage. -/
def initialCardView (stage : String) : CardView :=
  cardView stage (initialShowDetails stage)

/-- The `SelectItem` values of the stage dropdown in CompanyCard.tsx
lines 354–360, in order. -/
def selectItems : List String :=
  ["need_to_schedule", "scheduled", "completed", "canceled", "no_show"]

/-- The user interactions of `CompanyCard` that call `updateStage`: the
preview Accept button (`handlePreviewAccept`), the preview Pass button
(`handlePreviewReject`), either corner undo button, or picking one of the
five dropdown items. -/
inductive CardAction where
  | previewAccept : CardAction
  | previewReject : CardAction
  | undo : CardAction
  | selectStage (i : Fin 5) : CardAction
deriving Repr, DecidableEq

/-- The stage string each card action submits to the update endpoint:
Accept sends need_to_schedule, Pass sends rejected, undo sends pending,
and the dropdown sends its item's value. -/
def emittedStage : CardAction → String
  | .previewAccept => "need_to_schedule"
  | .previewReject => "rejected"
  | .undo => "pending"
  | .selectStage i => selectItems.getD i.val ""

/-! ### Helper lemmas -/

/-- A nonempty string is not `isEmpty`. -/
theorem isEmpty_false_of_ne (s : String) (h : s ≠ "") : s.isEmpty = false := by
  cases he : s.isEmpty
  · rfl
  · exact absurd ((String.isEmpty_iff s).mp he) h

/-- Updating the `(sid, cid)` row's stage preserves the row keys, so if a
row for the key was present, looking the key up afterwards finds a row and
its stage is the new one. -/
theorem find?_map_update (l : List MatchRow) (sid cid S : String)
    (h : (l.find? fun m => m.student_id == sid && m.company_id == cid).isSome) :
    ((l.map fun m =>
        if m.student_id == sid && m.company_id == cid then
          { m with stage := S }
        else m).find? fun m =>
          m.student_id == sid && m.company_id == cid).map (·.stage) =
      some S := by
  induction l with
  | nil => simp at h
  | cons a l ih =>
    by_cases ha : (a.student_id == sid && a.company_id == cid) = true
    · simp only [List.map_cons, if_pos ha]
      rw [List.find?_cons_of_pos]
      · rfl
      · simpa using ha
    · simp only [List.map_cons, if_neg ha]
      rw [List.find?_cons_of_neg _ (by simpa using ha)]
      rw [List.find?_cons_of_neg _ (by simpa using ha)] at h
      exact ih h

/-- After `updateMatches`, the updated key reads back the new stage. -/
theorem getMatchStage_updateMatches (db : DB) (sid cid S : String)
    (h : matchExists db sid cid = true) :
    getMatchStage (updateMatches db sid cid S) sid cid = some S :=
  find?_map_update db.matchRows sid cid S h

/-- `updateMatches` never deletes the key's row. -/
theorem matchExists_updateMatches (db : DB) (sid cid S : String)
    (h : matchExists db sid cid = true) :
    matchExists (updateMatches db sid cid S) sid cid = true := by
  have h2 := getMatchStage_updateMatches db sid cid S h
  unfold getMatchStage at h2
  unfold matchExists
  cases hf : ((updateMatches db sid cid S).matchRows.find? fun m =>
      m.student_id == sid && m.company_id == cid) with
  | none => rw [hf] at h2; simp at h2
  | some r => rfl

/-- `updateMatches` does not touch the students relation, so token
resolution is unaffected by a stage update. -/
theorem getStudentByToken_updateMatches (hash : String → String) (db : DB)
    (sid cid S t : String) :
    getStudentByToken hash (updateMatches db sid cid S) t =
      getStudentByToken hash db t := rfl

/-- On a request whose three fields are present, whose stage is
recognized, whose token resolves, and whose `(student, company)` key has a
match row, `POST` returns 200 with the new stage and the datastore with
exactly that row's stage replaced. -/
theorem POST_success (hash : String → String) (db : DB)
    (t cid S : String) (stu : Student)
    (ht : t ≠ "") (hcid : cid ≠ "") (hS : S ∈ validStages)
    (hstu : getStudentByToken hash db t = some stu)
    (hm : matchExists db stu.id cid = true) :
    POST hash false db (.fields (some t) (some cid) (some S)) =
      ⟨successResp S, updateMatches db stu.id cid S, true⟩ := by
  have hSne : S ≠ "" := by
    rintro rfl
    simp [validStages] at hS
  unfold matchExists at hm
  obtain ⟨r, hr⟩ := Option.isSome_iff_exists.mp hm
  have c1 : (!truthy (some t) || !truthy (some cid) || !truthy (some S)) =
      false := by
    simp [truthy, isEmpty_false_of_ne t ht, isEmpty_false_of_ne cid hcid,
      isEmpty_false_of_ne S hSne]
  have c2 : (!validStages.contains S) = false := by simp [hS]
  simp only [POST, c1, c2, Bool.false_eq_true, if_false, Option.getD_some,
    hstu, update_match_stage]
  rw [hr]

/-- A request with any falsy field is answered with the missing-fields
response before anything else happens. -/
theorem POST_missingFields (hash : String → String) (rpcError : Bool)
    (db : DB) (token? companyId? stage? : Option String)
    (h : truthy token? = false ∨ truthy companyId? = false ∨
      truthy stage? = false) :
    POST hash rpcError db (.fields token? companyId? stage?) =
      ⟨missingFieldsResp, db, false⟩ := by
  have c1 : (!truthy token? || !truthy companyId? || !truthy stage?) =
      true := by
    rcases h with h | h | h <;> simp [h]
  simp [POST, c1]

/-- A request with all fields present but an unrecognized stage is
answered with the invalid-stage response, leaving the datastore alone. -/
theorem POST_invalidStage (hash : String → String) (rpcError : Bool)
    (db : DB) (token? companyId? stage? : Option String)
    (h1 : truthy token? = true) (h2 : truthy companyId? = true)
    (h3 : truthy stage? = true)
    (hs : validStages.contains (stage?.getD "") = false) :
    POST hash rpcError db (.fields token? companyId? stage?) =
      ⟨invalidStageResp, db, false⟩ := by
  have c1 : (!truthy token? || !truthy companyId? || !truthy stage?) =
      false := by simp [h1, h2, h3]
  have hnotmem : stage?.getD "" ∉ validStages := by simpa using hs
  simp [POST, c1, hnotmem]

/-- A 200 response is only produced when the token resolved to a student
and a match row existed for the `(student, company)` key. -/
theorem POST_200_exists (hash : String → String) (rpcError : Bool)
    (db : DB) (token? companyId? stage? : Option String)
    (h : (POST hash rpcError db (.fields token? companyId? stage?)).resp.status
      = 200) :
    ∃ stu, getStudentByToken hash db (token?.getD "") = some stu ∧
      matchExists db stu.id (companyId?.getD "") = true := by
  simp only [POST] at h
  split at h
  · simp [missingFieldsResp] at h
  · split at h
    · simp [invalidStageResp] at h
    · split at h
      · simp [notFoundResp] at h
      · next student hstu =>
        split at h
        · simp [updateFailedResp] at h
        · split at h
          · simp [internalErrorResp] at h
          · next row db1 heq =>
            refine ⟨student, hstu, ?_⟩
            unfold update_match_stage at heq
            unfold matchExists
            cases hf : db.matchRows.find? fun m =>
                m.student_id == student.id &&
                m.company_id == companyId?.getD "" with
            | none => rw [hf] at heq; simp at heq
            | some r => rfl

/-- Sample hash function for concrete witnesses: appends a marker, so it
is injective like a real digest. -/
def sampleHash : String → String := fun s => s ++ "#h"

/-- An active sample student whose token is `abc123`. -/
def sampleStudent : Student :=
  { id := "stu-1", name := "Ada", email := "ada@example.edu"
    token_hash := "abc123#h", is_active := true }

/-- A deactivated sample student whose token is `tok2`. -/
def inactiveStudent : Student :=
  { id := "stu-2", name := "Bob", email := "bob@example.edu"
    token_hash := "tok2#h", is_active := false }

/-- A sample company. -/
def sampleCompany : CompanyRow :=
  { id := "acme-1", name := "Acme", blurb := "robots"
    looking_for := "builders", logo_slug := "acme"
    scheduling_url := "https://cal.example/acme", website_url := none }

/-- A sample datastore: one active and one deactivated student, one
company, one pending match for the active student. -/
def sampleDB : DB :=
  { students := [sampleStudent, inactiveStudent]
    companies := [sampleCompany]
    matchRows := [{ student_id := "stu-1", company_id := "acme-1"
                    tier := "Match", stage := "pending" }] }

/-! ### Claim theorems -/

/-- Claim C1: for every stage value S in the recognized set, calling the
update endpoint with a token resolving to an active student and a
companyId for which that student has a match succeeds with 200
`{success: true, data: {stage: S}}`, and the persisted stage of that
(student, company) match equals S. -/
theorem c1_recognized_stage_update_succeeds (hash : String → String)
    (db : DB) (t cid S : String) (stu : Student)
    (ht : t ≠ "") (hcid : cid ≠ "") (hS : S ∈ validStages)
    (hstu : getStudentByToken hash db t = some stu)
    (hm : matchExists db stu.id cid = true) :
    (POST hash false db (.fields (some t) (some cid) (some S))).resp =
      successResp S ∧
    getMatchStage
        (POST hash false db (.fields (some t) (some cid) (some S))).db
        stu.id cid = some S := by
  rw [POST_success hash db t cid S stu ht hcid hS hstu hm]
  exact ⟨rfl, getMatchStage_updateMatches db stu.id cid S hm⟩

/-- Witness for C1 at the sample datastore, with S = "scheduled". -/
theorem c1_witness :
    (POST sampleHash false sampleDB
        (.fields (some "abc123") (some "acme-1") (some "scheduled"))).resp =
      successResp "scheduled" ∧
    getMatchStage
        (POST sampleHash false sampleDB
          (.fields (some "abc123") (some "acme-1") (some "scheduled"))).db
        "stu-1" "acme-1" = some "scheduled" :=
  c1_recognized_stage_update_succeeds sampleHash sampleDB "abc123" "acme-1"
    "scheduled" sampleStudent (by decide) (by decide) (by decide)
    (by decide) (by decide)

/-- Claim C2, counterexample: the empty string is not in the recognized
stage set, yet a request with stage `""` (and both other fields present)
is answered with the missing-fields body, not `Invalid stage value` — the
claim as stated fails at S = `""`. -/
theorem c2_counterexample :
    "" ∉ validStages ∧
    POST sampleHash false sampleDB
        (.fields (some "abc123") (some "acme-1") (some "")) =
      ⟨missingFieldsResp, sampleDB, false⟩ ∧
    missingFieldsResp ≠ invalidStageResp := by decide

/-- Claim C2 as amended: for every nonempty string S not in the
recognized stage set, a request carrying S as stage (with token and
companyId present) fails with 400 `{error: "Invalid stage value"}` and
the datastore is neither contacted nor modified; an empty stage string is
instead reported by the missing-fields 400, also without any write. -/
theorem c2_amended_invalid_stage (hash : String → String) (rpcError : Bool)
    (db : DB) (t cid S : String)
    (ht : t ≠ "") (hcid : cid ≠ "") (hSne : S ≠ "")
    (hS : S ∉ validStages) :
    POST hash rpcError db (.fields (some t) (some cid) (some S)) =
      ⟨invalidStageResp, db, false⟩ ∧
    ∀ cid2 : String,
      POST hash rpcError db (.fields (some t) (some cid2) (some "")) =
        ⟨missingFieldsResp, db, false⟩ := by
  constructor
  · refine POST_invalidStage hash rpcError db _ _ _ ?_ ?_ ?_ ?_
    · simp [truthy, isEmpty_false_of_ne t ht]
    · simp [truthy, isEmpty_false_of_ne cid hcid]
    · simp [truthy, isEmpty_false_of_ne S hSne]
    · simpa using hS
  · intro cid2
    exact POST_missingFields hash rpcError db _ _ _
      (Or.inr (Or.inr (by decide)))

/-- Witness for the amended C2 at S = "bogus_stage". -/
theorem c2_witness :
    POST sampleHash false sampleDB
        (.fields (some "abc123") (some "acme-1") (some "bogus_stage")) =
      ⟨invalidStageResp, sampleDB, false⟩ :=
  (c2_amended_invalid_stage sampleHash false sampleDB "abc123" "acme-1"
    "bogus_stage" (by decide) (by decide) (by decide) (by decide)).1

/-- Claim C3: whenever any of token, companyId, stage is missing or the
empty string, the endpoint answers 400 with the missing-fields error and
the datastore is neither contacted nor modified. -/
theorem c3_missing_fields (hash : String → String) (rpcError : Bool)
    (db : DB) (token? companyId? stage? : Option String)
    (h : truthy token? = false ∨ truthy companyId? = false ∨
      truthy stage? = false) :
    POST hash rpcError db (.fields token? companyId? stage?) =
      ⟨missingFieldsResp, db, false⟩ :=
  POST_missingFields hash rpcError db token? companyId? stage? h

/-- Witness for C3: the spec's end-to-end scenario
`updateStage("", acme, "scheduled")`. -/
theorem c3_witness :
    POST sampleHash false sampleDB
        (.fields (some "") (some "acme-1") (some "scheduled")) =
      ⟨missingFieldsResp, sampleDB, false⟩ :=
  c3_missing_fields sampleHash false sampleDB (some "") (some "acme-1")
    (some "scheduled") (Or.inl (by decide))

/-- Claim C4: token resolution hashes the token and returns a student
only when a stored record has `token_hash` equal to the digest and
`is_active` true; every token not resolving to an active student yields
no student, the page renders the not-found view, and the rendered view is
identical across all failure causes (malformed, unknown, deactivated). -/
theorem c4_token_resolution (hash : String → String) (db : DB) :
    (∀ t stu, getStudentByToken hash db t = some stu →
        stu ∈ db.students ∧ stu.token_hash = hash t ∧
        stu.is_active = true) ∧
    (∀ t, (∀ stu ∈ db.students,
          ¬(stu.token_hash = hash t ∧ stu.is_active = true)) →
        getStudentByToken hash db t = none ∧
        StudentPage hash db t = .notFoundView) ∧
    (∀ t₁ t₂,
        (∀ stu ∈ db.students,
          ¬(stu.token_hash = hash t₁ ∧ stu.is_active = true)) →
        (∀ stu ∈ db.students,
          ¬(stu.token_hash = hash t₂ ∧ stu.is_active = true)) →
        StudentPage hash db t₁ = StudentPage hash db t₂) := by
  have key : ∀ t, (∀ stu ∈ db.students,
      ¬(stu.token_hash = hash t ∧ stu.is_active = true)) →
      getStudentByToken hash db t = none := by
    intro t h
    unfold getStudentByToken
    rw [List.find?_eq_none]
    intro s hs
    have := h s hs
    simp only [Bool.and_eq_true, beq_iff_eq]
    tauto
  refine ⟨?_, ?_, ?_⟩
  · intro t stu hfind
    refine ⟨List.mem_of_find?_eq_some hfind, ?_⟩
    have := List.find?_some hfind
    simp only [Bool.and_eq_true, beq_iff_eq] at this
    exact this
  · intro t h
    have hn := key t h
    exact ⟨hn, by simp [StudentPage, hn]⟩
  · intro t₁ t₂ h₁ h₂
    simp [StudentPage, key t₁ h₁, key t₂ h₂]

/-- Witness for C4: in the sample datastore the deactivated student's
own token, an unknown token and a malformed one all render the same
not-found view. -/
theorem c4_witness :
    (getStudentByToken sampleHash sampleDB "tok2" = none ∧
      StudentPage sampleHash sampleDB "tok2" = .notFoundView) ∧
    StudentPage sampleHash sampleDB "tok2" =
      StudentPage sampleHash sampleDB "%%garbage%%" :=
  ⟨(c4_token_resolution sampleHash sampleDB).2.1 "tok2" (by decide),
   (c4_token_resolution sampleHash sampleDB).2.2 "tok2" "%%garbage%%"
     (by decide) (by decide)⟩

/-- Claim C5: validation happens in the fixed order presence → stage
membership → token resolution → persistence: a request with both an
unrecognized (nonempty) stage and a non-resolving token gets the 400
invalid-stage response, not the 404, and the datastore is only contacted
on requests that passed both validations. -/
theorem c5_validation_order (hash : String → String) (rpcError : Bool)
    (db : DB) :
    (∀ t cid S : String, t ≠ "" → cid ≠ "" → S ≠ "" → S ∉ validStages →
        POST hash rpcError db (.fields (some t) (some cid) (some S)) =
          ⟨invalidStageResp, db, false⟩) ∧
    (∀ token? companyId? stage? : Option String,
        (POST hash rpcError db (.fields token? companyId? stage?)).dbTouched
            = true →
        truthy token? = true ∧ truthy companyId? = true ∧
        truthy stage? = true ∧ (stage?.getD "") ∈ validStages) ∧
    (POST hash rpcError db .malformed).dbTouched = false := by
  refine ⟨?_, ?_, rfl⟩
  · intro t cid S ht hcid hSne hS
    refine POST_invalidStage hash rpcError db _ _ _ ?_ ?_ ?_ ?_
    · simp [truthy, isEmpty_false_of_ne t ht]
    · simp [truthy, isEmpty_false_of_ne cid hcid]
    · simp [truthy, isEmpty_false_of_ne S hSne]
    · simpa using hS
  · intro token? companyId? stage? h
    rcases (Bool.eq_false_or_eq_true (truthy token?)).symm with h1 | h1
    · rw [POST_missingFields hash rpcError db _ _ _ (Or.inl h1)] at h
      simp at h
    rcases (Bool.eq_false_or_eq_true (truthy companyId?)).symm with h2 | h2
    · rw [POST_missingFields hash rpcError db _ _ _ (Or.inr (Or.inl h2))] at h
      simp at h
    rcases (Bool.eq_false_or_eq_true (truthy stage?)).symm with h3 | h3
    · rw [POST_missingFields hash rpcError db _ _ _
        (Or.inr (Or.inr h3))] at h
      simp at h
    rcases (Bool.eq_false_or_eq_true
        (validStages.contains (stage?.getD ""))).symm with hs | hs
    · rw [POST_invalidStage hash rpcError db _ _ _ h1 h2 h3 hs] at h
      simp at h
    · exact ⟨h1, h2, h3, by simpa using hs⟩

/-- Witness for C5: a request whose stage is bogus and whose token
resolves to nobody still gets the invalid-stage 400, untouched store. -/
theorem c5_witness :
    POST sampleHash false sampleDB
        (.fields (some "nobody") (some "acme-1") (some "bogus_stage")) =
      ⟨invalidStageResp, sampleDB, false⟩ :=
  (c5_validation_order sampleHash false sampleDB).1 "nobody" "acme-1"
    "bogus_stage" (by decide) (by decide) (by decide) (by decide)

/-- Claim C6: the card view-state determined by a match's stage on first
render: pending → compact accept/decline preview card; rejected →
collapsed/archived card; need_to_schedule, scheduled, completed →
expanded detail card with the scheduling action (and undo);
canceled, no_show → expanded detail card without the scheduling/accept
affordance but with the undo control. -/
theorem c6_card_view_mapping :
    initialCardView "pending" = .previewCard ∧
    initialCardView "rejected" = .archivedCard ∧
    initialCardView "need_to_schedule" = .detailCard true true ∧
    initialCardView "scheduled" = .detailCard true true ∧
    initialCardView "completed" = .detailCard true true ∧
    initialCardView "canceled" = .detailCard false true ∧
    initialCardView "no_show" = .detailCard false true := by decide

/-- Claim C7: for every request input — malformed JSON bodies included —
the handler returns one of the structured 200/400/404/500 responses and
never propagates an unhandled fault; an exception before any explicit
branch (the body failing to parse) yields 500 Internal server error. -/
theorem c7_structured_responses (hash : String → String) (rpcError : Bool)
    (db : DB) (body : ReqBody) :
    (POST hash rpcError db body).resp.status ∈
      ([200, 400, 404, 500] : List Nat) ∧
    POST hash rpcError db .malformed = ⟨internalErrorResp, db, false⟩ := by
  refine ⟨?_, rfl⟩
  cases body with
  | malformed => simp [POST, internalErrorResp]
  | fields token? companyId? stage? =>
    unfold POST
    repeat' (split <;>
      try simp_all [missingFieldsResp, invalidStageResp, notFoundResp,
        updateFailedResp, internalErrorResp, successResp])

/-- Claim C8: undo is idempotent in effect — setting a valid match's
stage to `pending` and then reading it yields `pending`, regardless of
the prior stage, and doing the undo a second time reads back `pending`
again. -/
theorem c8_undo_idempotent (hash : String → String) (db : DB)
    (t cid : String) (stu : Student)
    (ht : t ≠ "") (hcid : cid ≠ "")
    (hstu : getStudentByToken hash db t = some stu)
    (hm : matchExists db stu.id cid = true) :
    getMatchStage
        (POST hash false db (.fields (some t) (some cid) (some "pending"))).db
        stu.id cid = some "pending" ∧
    getMatchStage
        (POST hash false
          (POST hash false db
            (.fields (some t) (some cid) (some "pending"))).db
          (.fields (some t) (some cid) (some "pending"))).db
        stu.id cid = some "pending" := by
  have hP : "pending" ∈ validStages := by decide
  have e1 := POST_success hash db t cid "pending" stu ht hcid hP hstu hm
  have hm1 : matchExists (updateMatches db stu.id cid "pending") stu.id cid
      = true := matchExists_updateMatches db stu.id cid "pending" hm
  have hstu1 : getStudentByToken hash (updateMatches db stu.id cid "pending")
      t = some stu := by
    rw [getStudentByToken_updateMatches]
    exact hstu
  have e2 := POST_success hash (updateMatches db stu.id cid "pending") t cid
    "pending" stu ht hcid hP hstu1 hm1
  rw [e1]
  refine ⟨getMatchStage_updateMatches db stu.id cid "pending" hm, ?_⟩
  rw [e2]
  exact getMatchStage_updateMatches _ stu.id cid "pending" hm1

/-- Witness for C8 at the sample datastore (prior stage `pending` itself;
the theorem holds for any prior stage, exercised twice). -/
theorem c8_witness :
    getMatchStage
        (POST sampleHash false sampleDB
          (.fields (some "abc123") (some "acme-1") (some "pending"))).db
        "stu-1" "acme-1" = some "pending" ∧
    getMatchStage
        (POST sampleHash false
          (POST sampleHash false sampleDB
            (.fields (some "abc123") (some "acme-1") (some "pending"))).db
          (.fields (some "abc123") (some "acme-1") (some "pending"))).db
        "stu-1" "acme-1" = some "pending" :=
  c8_undo_idempotent sampleHash sampleDB "abc123" "acme-1" sampleStudent
    (by decide) (by decide) (by decide) (by decide)

/-- Claim C9 (implicit): when the rpc returns without error but with no
row — no match exists for the (student, company) key — the endpoint does
not return success: the response is 500 Internal server error; and a 200
success is produced only when the token resolved and a match row existed
for the key. -/
theorem c9_null_rpc_result (hash : String → String) (db : DB)
    (t cid S : String) (stu : Student)
    (ht : t ≠ "") (hcid : cid ≠ "") (hS : S ∈ validStages)
    (hstu : getStudentByToken hash db t = some stu)
    (hm : matchExists db stu.id cid = false) :
    POST hash false db (.fields (some t) (some cid) (some S)) =
      ⟨internalErrorResp, db, true⟩ ∧
    ∀ (rpcError : Bool) (token? companyId? stage? : Option String),
      (POST hash rpcError db (.fields token? companyId? stage?)).resp.status
          = 200 →
      ∃ stu2, getStudentByToken hash db (token?.getD "") = some stu2 ∧
        matchExists db stu2.id (companyId?.getD "") = true := by
  constructor
  · have hSne : S ≠ "" := by
      rintro rfl
      simp [validStages] at hS
    unfold matchExists at hm
    have hf : db.matchRows.find?
        (fun m => m.student_id == stu.id && m.company_id == cid) = none := by
      cases hf : db.matchRows.find?
          (fun m => m.student_id == stu.id && m.company_id == cid) with
      | none => rfl
      | some r => rw [hf] at hm; simp at hm
    have c1 : (!truthy (some t) || !truthy (some cid) || !truthy (some S)) =
        false := by
      simp [truthy, isEmpty_false_of_ne t ht, isEmpty_false_of_ne cid hcid,
        isEmpty_false_of_ne S hSne]
    have c2 : (!validStages.contains S) = false := by simp [hS]
    simp only [POST, c1, c2, Bool.false_eq_true, if_false, Option.getD_some,
      hstu, update_match_stage]
    rw [hf]
  · intro rpcError token? companyId? stage? h
    exact POST_200_exists hash rpcError db token? companyId? stage? h

/-- Witness for C9: the sample student has no match with a second
company id, so updating that pair 500s without writing. -/
theorem c9_witness :
    POST sampleHash false sampleDB
        (.fields (some "abc123") (some "ghost-co") (some "scheduled")) =
      ⟨internalErrorResp, sampleDB, true⟩ :=
  (c9_null_rpc_result sampleHash sampleDB "abc123" "ghost-co" "scheduled"
    sampleStudent (by decide) (by decide) (by decide) (by decide)
    (by decide)).1

/-- Claim C10 (implicit): every stage string the card component can
submit comes from the set {pending, rejected, need_to_schedule,
scheduled, completed, canceled, no_show} — accept sends need_to_schedule
and decline sends rejected — so each emitted value is accepted by the
endpoint, and accepted, declined, assigned are never emitted by any
control. -/
theorem c10_client_stage_set :
    (∀ a : CardAction,
        emittedStage a ∈
          (["pending", "rejected", "need_to_schedule", "scheduled",
            "completed", "canceled", "no_show"] : List String) ∧
        emittedStage a ∈ validStages ∧
        emittedStage a ∉ (["accepted", "declined", "assigned"] :
          List String)) ∧
    emittedStage .previewAccept = "need_to_schedule" ∧
    emittedStage .previewReject = "rejected" := by
  refine ⟨?_, rfl, rfl⟩
  intro a
  cases a with
  | previewAccept => decide
  | previewReject => decide
  | undo => decide
  | selectStage i => fin_cases i <;> decide

end Sweek
